import Mathlib

/-!
Verification of the OnStepX motion-control core (src/src/lib/Axis.cpp and
src/src/lib/Mount.cpp) against its natural-language specification.

The C++ code is shallowly embedded: `double` arithmetic is modelled by exact
rationals (ℚ), `long`/`int` step counts by ℤ, `unsigned long` timer periods by
ℕ with an explicit wrap at 2^32 (the HAL in src targets the STM32F446, a
32-bit MCU), and each mutating member function becomes a pure state-passing
function on an explicit state record.  External collaborators (the periodic
task scheduler, the calibration clock, the unit-conversion macros from the
headers that are not part of src/) are abstracted as parameters, or modelled
from the spec where so noted.
-/

/-- Rational stand-in for the C `M_PI` double constant used by `degToRad` /
`radToDeg`; its exact value is immaterial to the claims (only that it is a
fixed constant strictly between 3 and 4). -/
def piRat : ℚ := 3141592653589793 / 1000000000000000

/-- Modelled from the spec: degree→radian conversion helper (`degToRad`,
defined in a header outside src/); standard `x*π/180`. -/
def degToRad (x : ℚ) : ℚ := x * piRat / 180

/-- Modelled from the spec: radian→degree conversion helper (`radToDeg`). -/
def radToDeg (x : ℚ) : ℚ := x * 180 / piRat

/-- Modelled from the spec: arc-second→radian conversion helper
(`arcsecToRad`), i.e. `degToRad (x/3600)`. -/
def arcsecToRad (x : ℚ) : ℚ := degToRad (x / 3600)

/-- Modelled from the spec: radian→arc-second conversion helper
(`radToArcsec`), i.e. `radToDeg x * 3600`. -/
def radToArcsec (x : ℚ) : ℚ := radToDeg x * 3600

/-- C `lround`: round to nearest integer, halfway cases away from zero. -/
def lroundQ (q : ℚ) : ℤ := if 0 ≤ q then (q + 1/2).floor else -(-q + 1/2).floor

/-- C truncation (assignment of a `double` to an integer type): round toward
zero. -/
def ctrunc (q : ℚ) : ℤ := if 0 ≤ q then q.floor else -(-q).floor

/-- Conversion of a signed value to `unsigned long` (32-bit on the STM32F446
target of the HAL in src/): reduce modulo 2^32. -/
def toULong (i : ℤ) : ℕ := (i % 4294967296).toNat

/-- Modelled from the spec: the per-tick step magnitude `step` of an axis.
Its declaration lives in Axis.h, which is not under src/; the spec's data
model fixes it: "`step`: magnitude advanced per generator tick (1 for full
microstep tick granularity used by the generator; a fixed constant of the
axis)". -/
def stepConst : ℤ := 1

/-- State of one `Axis` instance (Axis.cpp / the spec's data model).
`lastPeriod` and `programmedPeriod` are the most recently computed half
period in sub-microsecond ticks and the period actually pushed to the
periodic-task scheduler (`tasks.setPeriodSubMicros`). -/
structure AxisState where
  spm : ℚ
  motorSteps : ℤ
  targetSteps : ℤ
  indexSteps : ℤ
  backlashSteps : ℤ
  backlashAmountSteps : ℤ
  trackingStep : ℤ
  tracking : Bool
  takeStep : Bool
  stepPin : Bool
  dirFwd : Bool
  target : ℚ
  minPeriodMicros : ℚ
  lastPeriod : ℕ
  programmedPeriod : ℕ
  enabled : Bool
  enablePinWired : Bool
  deriving Repr, DecidableEq

namespace AxisState

/-- `Axis::setMotorCoordinateSteps`: atomically reset motor and target to the
same step count, zero backlash and index. -/
def setMotorCoordinateSteps (value : ℤ) (a : AxisState) : AxisState :=
  { a with indexSteps := 0, motorSteps := value, targetSteps := value,
           backlashSteps := 0 }

/-- `Axis::setInstrumentCoordinate`: re-label the current physical position
(`indexSteps = steps - motorSteps`; the C assignment `long steps = value*spm`
truncates). -/
def setInstrumentCoordinate (value : ℚ) (a : AxisState) : AxisState :=
  { a with indexSteps := ctrunc (value * a.spm) - a.motorSteps }

/-- `Axis::getInstrumentCoordinateSteps`. -/
def getInstrumentCoordinateSteps (a : AxisState) : ℤ := a.motorSteps + a.indexSteps

/-- `Axis::getMotorCoordinateSteps`. -/
def getMotorCoordinateSteps (a : AxisState) : ℤ := a.motorSteps + a.backlashSteps

/-- `Axis::setTargetCoordinate`: keep a floating target tracker in steps and
commit `targetSteps = lround(target) - indexSteps`. -/
def setTargetCoordinate (value : ℚ) (a : AxisState) : AxisState :=
  let t := value * a.spm
  { a with target := t, targetSteps := lroundQ t - a.indexSteps }

/-- `Axis::moveTargetCoordinate`: relative version of `setTargetCoordinate`. -/
def moveTargetCoordinate (value : ℚ) (a : AxisState) : AxisState :=
  let t := a.target + value * a.spm
  { a with target := t, targetSteps := lroundQ t - a.indexSteps }

/-- `Axis::nearTarget`: `|motorSteps + backlashSteps - targetSteps| <= step*2`. -/
def nearTarget (a : AxisState) : Bool :=
  |a.motorSteps + a.backlashSteps - a.targetSteps| ≤ stepConst * 2

/-- `Axis::setTracking`. -/
def setTracking (b : Bool) (a : AxisState) : AxisState := { a with tracking := b }

/-- `Axis::setBacklash`: `backlashAmountSteps = value * spm` (the C assignment
of a `double` product to the `long` field truncates). -/
def setBacklash (value : ℚ) (a : AxisState) : AxisState :=
  { a with backlashAmountSteps := ctrunc (value * a.spm) }

/-- `Axis::getBacklash`: returns `backlashSteps/spm` (note: the banked
backlash, not the configured `backlashAmountSteps`). -/
def getBacklash (a : AxisState) : ℚ := a.backlashSteps / a.spm

/-- `Axis::enable`: drives the output stage only when an enable pin is wired
(`Pins.enable != OFF`). -/
def enable (value : Bool) (a : AxisState) : AxisState :=
  if a.enablePinWired then { a with enabled := value } else a

/-- The raw microsecond half-period computed by `Axis::setFrequency` before
the finiteness/magnitude guard: `d = 1e6/(frequency*spm)`, clamped below by
`minPeriodMicros`, then halved for the square wave. -/
def halfPeriodMicros (frequency : ℚ) (a : AxisState) : ℚ :=
  let d := 1000000 / (frequency * a.spm)
  let d := if d < a.minPeriodMicros then a.minPeriodMicros else d
  d / 2

/-- `Axis::setFrequency`.  `siderealPeriod` is the `SIDEREAL_PERIOD` constant
and `clockPeriod` the calibration clock's `getPeriodSubMicros()`, both
external to src/.  When `frequency*spm = 0` the C double division yields
`+inf`; `isnan(inf)` is false but `fabs(inf) <= 134000000` fails, so the
reject branch runs — the model folds that case into an explicit test. -/
def setFrequency (siderealPeriod clockPeriod frequency : ℚ) (a : AxisState) :
    AxisState :=
  if frequency * a.spm = 0 then
    { a with lastPeriod := 0, programmedPeriod := 0 }
  else
    let d := halfPeriodMicros frequency a
    if |d| ≤ 134000000 then
      { a with lastPeriod := toULong (lroundQ (d * 16)),
               programmedPeriod :=
                 toULong (lroundQ (d * 16 * (siderealPeriod / clockPeriod))) }
    else
      { a with lastPeriod := 0, programmedPeriod := 0 }

/-- `Axis::getFrequencySteps`: `0` when `lastPeriod == 0`, else
`16000000/(lastPeriod*2)`. -/
def getFrequencySteps (a : AxisState) : ℚ :=
  if a.lastPeriod = 0 then 0 else 16000000 / ((a.lastPeriod : ℚ) * 2)

/-- `Axis::getFrequency`. -/
def getFrequency (a : AxisState) : ℚ := a.getFrequencySteps / a.spm

/-- `Axis::move`, the two-phase interrupt-context step generator.  The step
pin's electrical level is abstracted to `stepPin` (`true` = asserted active,
absorbing `invertStep`); the direction-pin write is absorbed into the
`dirFwd` flag.  The `microstepModeControl` bookkeeping line touches a field
declared outside src/ and is independent of every other field, so it is not
modelled. -/
def move (a : AxisState) : AxisState :=
  if a.takeStep then
    let a1 := if a.tracking then
      { a with targetSteps := a.targetSteps + a.trackingStep } else a
    let a2 :=
      if a1.motorSteps + a1.backlashSteps > a1.targetSteps then
        if a1.backlashSteps > 0 then
          { a1 with backlashSteps := a1.backlashSteps - stepConst, stepPin := true }
        else
          { a1 with motorSteps := a1.motorSteps - stepConst, stepPin := true }
      else if a1.motorSteps + a1.backlashSteps < a1.targetSteps then
        if a1.backlashSteps < a1.backlashAmountSteps then
          { a1 with backlashSteps := a1.backlashSteps + stepConst, stepPin := true }
        else
          { a1 with motorSteps := a1.motorSteps + stepConst, stepPin := true }
      else a1
    { a2 with takeStep := !a2.takeStep }
  else
    let a1 :=
      if a.motorSteps + a.backlashSteps > a.targetSteps then
        if !a.dirFwd then { a with dirFwd := !a.dirFwd } else a
      else if a.motorSteps + a.backlashSteps < a.targetSteps then
        if a.dirFwd then { a with dirFwd := !a.dirFwd } else a
      else a
    { a1 with stepPin := false, takeStep := !a1.takeStep }

/-- `n` consecutive generator ticks. -/
def moveIter : ℕ → AxisState → AxisState
  | 0, a => a
  | n + 1, a => move (moveIter n a)

/-- Distance, in steps, between the committed mechanical position and the
target: `|motorSteps + backlashSteps - targetSteps|`. -/
def dist (a : AxisState) : ℕ := (a.motorSteps + a.backlashSteps - a.targetSteps).natAbs

/-- The backlash bound invariant of the spec's data model. -/
def Inv (a : AxisState) : Prop :=
  0 ≤ a.backlashSteps ∧ a.backlashSteps ≤ a.backlashAmountSteps

instance (a : AxisState) : Decidable a.Inv := by unfold Inv; infer_instance

end AxisState

/-- A command-context interaction with one axis, interleaved with generator
ticks: target changes (absolute or relative) and tracking on/off. -/
inductive AxisEvent where
  | tick : AxisEvent
  | setTargetC : ℚ → AxisEvent
  | moveTargetC : ℚ → AxisEvent
  | setTrackingE : Bool → AxisEvent
  deriving Repr, DecidableEq

/-- Apply one event to an axis. -/
def applyEvent (a : AxisState) : AxisEvent → AxisState
  | AxisEvent.tick => a.move
  | AxisEvent.setTargetC v => a.setTargetCoordinate v
  | AxisEvent.moveTargetC v => a.moveTargetCoordinate v
  | AxisEvent.setTrackingE b => a.setTracking b

/-- Apply a whole interleaving of command-context changes and ticks. -/
def applyEvents (a : AxisState) : List AxisEvent → AxisState
  | [] => a
  | e :: es => applyEvents (applyEvent a e) es

/-! ## Mount model (src/src/lib/Mount.cpp) -/

/-- Mount type (`GEM`, `FORK`, `ALTAZM`). -/
inductive MountType where
  | GEM | FORK | ALTAZM
  deriving Repr, DecidableEq

/-- Tracking state (`TS_NONE`, `TS_SIDEREAL`). -/
inductive TrackingState where
  | TS_NONE | TS_SIDEREAL
  deriving Repr, DecidableEq

/-- Rate-compensation mode. -/
inductive RateCompensation where
  | RC_NONE | RC_REFR_RA | RC_REFR_BOTH | RC_FULL_RA | RC_FULL_BOTH
  deriving Repr, DecidableEq

/-- Park state. -/
inductive ParkState where
  | PS_UNPARKED | PS_PARKING | PS_PARKED | PS_PARK_FAILED
  deriving Repr, DecidableEq

/-- Goto state (only `GS_NONE` is tested by the code in src/). -/
inductive GotoState where
  | GS_NONE | GS_GOTO
  deriving Repr, DecidableEq

/-- Guide state. -/
inductive GuideState where
  | GU_NONE | GU_GUIDE | GU_PULSE_GUIDE
  deriving Repr, DecidableEq

/-- Command status codes used by Mount.cpp (the enum lives in ProcessCmds.h
outside src/; the constructors below are the members the file uses). -/
inductive CommandError where
  | CE_NONE | CE_PARAM_RANGE | CE_PARAM_FORM | CE_CMD_UNKNOWN
  | CE_PARKED | CE_MOUNT_IN_MOTION
  deriving Repr, DecidableEq

/-- The spec's "state-conflict" error kinds: operation invalid in the current
state (tracking change while parked / while the mount is in motion). -/
def isStateConflict : CommandError → Bool
  | CommandError.CE_PARKED => true
  | CommandError.CE_MOUNT_IN_MOTION => true
  | _ => false

/-- The sticky general-error flags cleared by `Mount::resetGeneralErrors`
(owned by the external error-aggregation collaborator). -/
structure GeneralErrors where
  altitudeMin : Bool
  limitSense : Bool
  decMinMax : Bool
  azmMinMax : Bool
  raMinMax : Bool
  raMeridian : Bool
  sync : Bool
  altitudeMax : Bool
  park : Bool
  deriving Repr, DecidableEq

/-- `Mount::resetGeneralErrors`. -/
def resetGeneralErrors : GeneralErrors :=
  { altitudeMin := false, limitSense := false, decMinMax := false,
    azmMinMax := false, raMinMax := false, raMeridian := false,
    sync := false, altitudeMax := false, park := false }

/-- Modelled from the spec: the numeric conversion helpers and constants
(`hzToSidereal`, `hzToSubMicros`, `siderealToRad`, `SIDEREAL_PERIOD`,
`SIDEREAL_RATE_HZ`) live in headers outside src/; the Mount model is
parameterized over them. -/
structure ExtConv where
  hzToSidereal : ℚ → ℚ
  hzToSubMicros : ℚ → ℚ
  siderealToRad : ℚ → ℚ
  siderealPeriod : ℚ
  siderealRateHz : ℚ

/-- State of the `Mount` plus the two axes it owns and the external
calibration clock it reads and writes (`clock.getPeriodSubMicros()`). -/
structure MountState where
  mountType : MountType
  trackingState : TrackingState
  rateCompensation : RateCompensation
  parkState : ParkState
  gotoState : GotoState
  guideState : GuideState
  trackingRate : ℚ
  trackingRateAxis1 : ℚ
  trackingRateAxis2 : ℚ
  guideRateAxis1 : ℚ
  guideRateAxis2 : ℚ
  deltaRateAxis1 : ℚ
  deltaRateAxis2 : ℚ
  minAltitude : ℚ
  maxAltitude : ℚ
  clockPeriodSubMicros : ℚ
  axis1 : AxisState
  axis2 : AxisState
  generalErrors : GeneralErrors
  deriving Repr, DecidableEq

namespace MountState

/-- `Mount::updateTrackingRates`. -/
def updateTrackingRates (ext : ExtConv) (m : MountState) : MountState :=
  let m :=
    if m.mountType ≠ MountType.ALTAZM then
      let m := { m with trackingRateAxis1 := m.trackingRate }
      if m.rateCompensation ≠ RateCompensation.RC_REFR_BOTH ∧
         m.rateCompensation ≠ RateCompensation.RC_FULL_BOTH then
        { m with trackingRateAxis2 := 0 }
      else m
    else m
  let m :=
    if m.trackingState = TrackingState.TS_NONE then
      { m with trackingRateAxis1 := 0, trackingRateAxis2 := 0 }
    else m
  let a1 := m.axis1.setFrequency ext.siderealPeriod m.clockPeriodSubMicros
    (ext.siderealToRad (m.trackingRateAxis1 + m.guideRateAxis1 + m.deltaRateAxis1))
  let m := { m with axis1 := a1 }
  let a2 := m.axis2.setFrequency ext.siderealPeriod m.clockPeriodSubMicros
    (ext.siderealToRad (m.trackingRateAxis2 + m.guideRateAxis2 + m.deltaRateAxis2))
  { m with axis2 := a2 }

end MountState

/-- The second character of a `:T..#` tracking command. -/
inductive TCmd where
  | o | r | n | one | two | S | K | L | Q | plus | minus | R | e | d
  deriving Repr, DecidableEq

/-- The `T` command block of `Mount::command` (an empty parameter is
required for the block to run at all and is implicit here).

The C source has two successive `if`/`else` chains: the chain handling
`o`/`r`/`n` is NOT connected by an `else` to the chain handling
`1`/`2`/`S`/…/`d` (the `else` after the `n` branch is missing), so after an
`o`/`r`/`n` branch runs, control still falls into the second chain, whose
final `else` sets `CE_CMD_UNKNOWN`.  The model reproduces that structure
literally: a first pass for `o`/`r`/`n`, then the second chain. -/
def tCommand (ext : ExtConv) (c : TCmd) (m : MountState) :
    MountState × CommandError :=
  -- first chain: o / r / n (guarded by mountType != ALTAZM), no trailing else
  let m :=
    if c = TCmd.o ∧ m.mountType ≠ MountType.ALTAZM then
      { m with rateCompensation := RateCompensation.RC_FULL_RA }
    else if c = TCmd.r ∧ m.mountType ≠ MountType.ALTAZM then
      { m with rateCompensation := RateCompensation.RC_REFR_RA }
    else if c = TCmd.n ∧ m.mountType ≠ MountType.ALTAZM then
      { m with rateCompensation := RateCompensation.RC_NONE }
    else m
  -- second chain: 1 / 2 / S / K / L / Q / + / - / R / e / d, else CMD_UNKNOWN
  let me : MountState × CommandError :=
    if c = TCmd.one ∧ m.mountType ≠ MountType.ALTAZM then
      ({ m with rateCompensation :=
           if m.rateCompensation = RateCompensation.RC_REFR_BOTH then
             RateCompensation.RC_REFR_RA
           else if m.rateCompensation = RateCompensation.RC_FULL_BOTH then
             RateCompensation.RC_FULL_RA
           else m.rateCompensation }, CommandError.CE_NONE)
    else if c = TCmd.two ∧ m.mountType ≠ MountType.ALTAZM then
      ({ m with rateCompensation :=
           if m.rateCompensation = RateCompensation.RC_REFR_RA then
             RateCompensation.RC_REFR_BOTH
           else if m.rateCompensation = RateCompensation.RC_FULL_RA then
             RateCompensation.RC_FULL_BOTH
           else m.rateCompensation }, CommandError.CE_NONE)
    else if c = TCmd.S then
      ({ m with rateCompensation := RateCompensation.RC_NONE,
                trackingRate := ext.hzToSidereal 60 }, CommandError.CE_NONE)
    else if c = TCmd.K then
      ({ m with rateCompensation := RateCompensation.RC_NONE,
                trackingRate := ext.hzToSidereal (60136/1000) }, CommandError.CE_NONE)
    else if c = TCmd.L then
      ({ m with rateCompensation := RateCompensation.RC_NONE,
                trackingRate := ext.hzToSidereal (579/10) }, CommandError.CE_NONE)
    else if c = TCmd.Q then
      ({ m with trackingRate := ext.hzToSidereal ext.siderealRateHz }, CommandError.CE_NONE)
    else if c = TCmd.plus then
      ({ m with clockPeriodSubMicros :=
           m.clockPeriodSubMicros - ext.hzToSubMicros (2/100) }, CommandError.CE_NONE)
    else if c = TCmd.minus then
      ({ m with clockPeriodSubMicros :=
           m.clockPeriodSubMicros + ext.hzToSubMicros (2/100) }, CommandError.CE_NONE)
    else if c = TCmd.R then
      ({ m with clockPeriodSubMicros := ext.siderealPeriod }, CommandError.CE_NONE)
    else if c = TCmd.e then
      if m.parkState ≠ ParkState.PS_PARKED then
        ({ m with generalErrors := resetGeneralErrors,
                  trackingState := TrackingState.TS_SIDEREAL,
                  axis1 := m.axis1.enable true,
                  axis2 := m.axis2.enable true }, CommandError.CE_NONE)
      else (m, CommandError.CE_PARKED)
    else if c = TCmd.d then
      if m.gotoState = GotoState.GS_NONE ∧ m.guideState = GuideState.GU_NONE then
        ({ m with trackingState := TrackingState.TS_NONE }, CommandError.CE_NONE)
      else (m, CommandError.CE_MOUNT_IN_MOTION)
    else (m, CommandError.CE_CMD_UNKNOWN)
  -- post-processing: only when still CE_NONE, reset the rate for o/r/n and
  -- push the rates to the axes
  if me.2 = CommandError.CE_NONE then
    let m := me.1
    let m :=
      if c = TCmd.o ∨ c = TCmd.r ∨ c = TCmd.n then
        { m with trackingRate := ext.hzToSidereal ext.siderealRateHz }
      else m
    (m.updateTrackingRates ext, CommandError.CE_NONE)
  else me

/-- The `:Sh[sDD]#` handler of `Mount::command` (set the elevation lower
limit), after the external `atoi2` parse produced `deg`. -/
def shCommand (deg : ℤ) (m : MountState) : MountState × CommandError :=
  if -30 ≤ deg ∧ deg ≤ 30 then
    ({ m with minAltitude := degToRad deg }, CommandError.CE_NONE)
  else (m, CommandError.CE_PARAM_RANGE)

/-- The `:So[DD]#` handler of `Mount::command` (set the overhead limit),
after the external `atoi2` parse produced `deg`.  Note the clamp compares
`limits.maxAltitude` — which is in radians — against the bare number 87. -/
def soCommand (deg : ℤ) (m : MountState) : MountState × CommandError :=
  if 60 ≤ deg ∧ deg ≤ 90 then
    let m := { m with maxAltitude := degToRad deg }
    let m :=
      if m.mountType = MountType.ALTAZM ∧ m.maxAltitude > 87 then
        { m with maxAltitude := 87 }
      else m
    (m, CommandError.CE_NONE)
  else (m, CommandError.CE_PARAM_RANGE)

/-- Which axis a `:$B..#` / `:%B..#` backlash command names: `D` (Dec/Alt)
or `R` (RA/Azm). -/
inductive BAxis where
  | D | R
  deriving Repr, DecidableEq

/-- The `:$B[D|R][n]#` handler (set backlash in arc-seconds), after the
external `atoi2` parse produced `arcSecs`. -/
def dollarBCommand (p : BAxis) (arcSecs : ℤ) (m : MountState) :
    MountState × CommandError :=
  if 0 ≤ arcSecs ∧ arcSecs ≤ 3600 then
    match p with
    | BAxis.D => ({ m with axis2 := m.axis2.setBacklash (arcsecToRad arcSecs) },
                  CommandError.CE_NONE)
    | BAxis.R => ({ m with axis1 := m.axis1.setBacklash (arcsecToRad arcSecs) },
                  CommandError.CE_NONE)
  else (m, CommandError.CE_PARAM_RANGE)

/-- The `:%B[D|R]#` handler (read backlash in arc-seconds): the reply value.
Both the `D` and the `R` branch of the source read `axis2.getBacklash()`;
`int arcSec = radToArcsec(...)` truncates, then the value is clamped to
[0, 3600]. -/
def percentBCommand (p : BAxis) (m : MountState) : ℤ :=
  match p with
  | BAxis.D =>
    let arcSec := ctrunc (radToArcsec m.axis2.getBacklash)
    let arcSec := if arcSec < 0 then 0 else arcSec
    if arcSec > 3600 then 3600 else arcSec
  | BAxis.R =>
    let arcSec := ctrunc (radToArcsec m.axis2.getBacklash)
    let arcSec := if arcSec < 0 then 0 else arcSec
    if arcSec > 3600 then 3600 else arcSec

/-! ## Helper lemmas about the step generator -/

namespace AxisState

/-- One generator tick preserves the backlash bound. -/
theorem Inv_move (a : AxisState) (h : a.Inv) : a.move.Inv := by
  obtain ⟨h1, h2⟩ := h
  unfold Inv move
  cases hts : a.takeStep <;> cases htr : a.tracking <;>
    simp only [hts, htr, Bool.false_eq_true, if_true, if_false, ite_true,
      ite_false] <;>
    split_ifs <;> simp_all [stepConst] <;> omega

/-- A tick never changes the tracking flag. -/
theorem tracking_move (a : AxisState) : a.move.tracking = a.tracking := by
  unfold move
  cases hts : a.takeStep <;>
    simp only [hts, Bool.false_eq_true, if_true, if_false, ite_true,
      ite_false] <;>
    split_ifs <;> simp

/-- A phase-B tick (takeStep false) changes no position state, deasserts the
step pin, and flips the phase. -/
theorem move_phaseB (a : AxisState) (h : a.takeStep = false) :
    a.move.motorSteps = a.motorSteps ∧ a.move.backlashSteps = a.backlashSteps ∧
    a.move.targetSteps = a.targetSteps ∧ a.move.stepPin = false ∧
    a.move.takeStep = true := by
  unfold move
  simp only [h, Bool.false_eq_true, if_true, if_false, ite_true, ite_false]
  split_ifs <;> simp_all

/-- With tracking off, a phase-A tick reduces the distance to target by one
step (saturating at zero), holds the target still, flips the phase, and
keeps the pin untouched when already at target. -/
theorem move_phaseA (a : AxisState) (h : a.takeStep = true)
    (ht : a.tracking = false) :
    a.move.dist = a.dist - 1 ∧ a.move.targetSteps = a.targetSteps ∧
    a.move.takeStep = false ∧
    (a.dist = 0 → a.move.stepPin = a.stepPin) := by
  unfold move dist
  simp only [h, ht, Bool.false_eq_true, if_true, if_false, ite_true, ite_false]
  split_ifs <;> simp_all [stepConst] <;> omega

/-- With tracking off, a tick never increases the distance to target. -/
theorem dist_move_le (a : AxisState) (ht : a.tracking = false) :
    a.move.dist ≤ a.dist := by
  cases h : a.takeStep
  · obtain ⟨e1, e2, e3, _, _⟩ := move_phaseB a h
    unfold dist
    rw [e1, e2, e3]
  · obtain ⟨e1, _, _, _⟩ := move_phaseA a h ht
    omega

/-- With tracking off, two consecutive ticks reduce the distance by exactly
one step (saturating at zero). -/
theorem dist_move_move (a : AxisState) (ht : a.tracking = false) :
    a.move.move.dist = a.dist - 1 := by
  cases h : a.takeStep
  · have hB := move_phaseB a h
    have hA := move_phaseA a.move (hB.2.2.2.2) (by rw [tracking_move, ht])
    have : a.move.dist = a.dist := by
      unfold dist
      rw [hB.1, hB.2.1, hB.2.2.1]
    omega
  · have hA := move_phaseA a h ht
    have hB := move_phaseB a.move (hA.2.2.1)
    have : a.move.move.dist = a.move.dist := by
      unfold dist
      rw [hB.1, hB.2.1, hB.2.2.1]
    omega

/-- Iterated ticks never change the tracking flag. -/
theorem tracking_moveIter (n : ℕ) (a : AxisState) :
    (moveIter n a).tracking = a.tracking := by
  induction n with
  | zero => rfl
  | succ k ih => simp [moveIter, tracking_move, ih]

/-- With tracking off, `2n` ticks reduce the distance by `n`, saturating. -/
theorem dist_moveIter_two_mul (a : AxisState) (ht : a.tracking = false) :
    ∀ n : ℕ, (moveIter (2 * n) a).dist = a.dist - n := by
  intro n
  induction n with
  | zero => rfl
  | succ k ih =>
    have hstep : moveIter (2 * (k + 1)) a = (moveIter (2 * k) a).move.move := rfl
    rw [hstep, dist_move_move _ (by rw [tracking_moveIter, ht]), ih]
    omega

/-- With tracking off, the distance is monotonically non-increasing tick by
tick. -/
theorem dist_moveIter_mono (a : AxisState) (ht : a.tracking = false) (n : ℕ) :
    (moveIter (n + 1) a).dist ≤ (moveIter n a).dist := by
  have : moveIter (n + 1) a = (moveIter n a).move := rfl
  rw [this]
  exact dist_move_le _ (by rw [tracking_moveIter, ht])

/-- Once at target with the pin idle, a tick keeps the pin idle and the
distance at zero (tracking off). -/
theorem stepPin_stays (a : AxisState) (ht : a.tracking = false)
    (hd : a.dist = 0) (hp : a.stepPin = false) :
    a.move.stepPin = false ∧ a.move.dist = 0 := by
  cases h : a.takeStep
  · have hB := move_phaseB a h
    refine ⟨hB.2.2.2.1, ?_⟩
    unfold dist
    rw [hB.1, hB.2.1, hB.2.2.1]
    exact hd
  · have hA := move_phaseA a h ht
    exact ⟨by rw [hA.2.2.2 hd, hp], by omega⟩

/-- Once at target, two ticks leave the pin idle and the distance at zero
(tracking off): whatever the phase parity, one of the two ticks is a phase-B
tick that deasserts the pin. -/
theorem stepPin_two (a : AxisState) (ht : a.tracking = false)
    (hd : a.dist = 0) :
    a.move.move.stepPin = false ∧ a.move.move.dist = 0 := by
  cases h : a.takeStep
  · have hB := move_phaseB a h
    have hd1 : a.move.dist = 0 := by
      unfold dist
      rw [hB.1, hB.2.1, hB.2.2.1]
      exact hd
    exact stepPin_stays a.move (by rw [tracking_move, ht]) hd1 hB.2.2.2.1
  · have hA := move_phaseA a h ht
    have hd1 : a.move.dist = 0 := by omega
    have hB := move_phaseB a.move hA.2.2.1
    refine ⟨hB.2.2.2.1, ?_⟩
    unfold dist
    rw [hB.1, hB.2.1, hB.2.2.1]
    exact hd1

/-- `moveIter` splits across addition of tick counts. -/
theorem moveIter_add (m n : ℕ) (a : AxisState) :
    moveIter (m + n) a = moveIter m (moveIter n a) := by
  induction m with
  | zero => simp [moveIter, Nat.zero_add]
  | succ k ih =>
    have h : k + 1 + n = (k + n) + 1 := by omega
    rw [h]
    show ((moveIter (k + n) a).move = _)
    rw [ih]
    rfl

/-- Once at target, the pin is idle from the second subsequent tick onward
and the axis never moves again (tracking off). -/
theorem stepPin_after_conv (a : AxisState) (ht : a.tracking = false)
    (hd : a.dist = 0) :
    ∀ k : ℕ, (moveIter (2 + k) a).stepPin = false ∧
      (moveIter (2 + k) a).dist = 0 := by
  intro k
  induction k with
  | zero => exact stepPin_two a ht hd
  | succ j ih =>
    have h : moveIter (2 + (j + 1)) a = (moveIter (2 + j) a).move := rfl
    rw [h]
    exact stepPin_stays _ (by rw [tracking_moveIter, ht]) ih.2 ih.1

/-- Every command-context event and every tick preserves the backlash
bound. -/
theorem Inv_applyEvent (a : AxisState) (e : AxisEvent) (h : a.Inv) :
    (applyEvent a e).Inv := by
  cases e with
  | tick => exact Inv_move a h
  | setTargetC v => simpa [applyEvent, setTargetCoordinate, Inv] using h
  | moveTargetC v => simpa [applyEvent, moveTargetCoordinate, Inv] using h
  | setTrackingE b => simpa [applyEvent, setTracking, Inv] using h

end AxisState

/-- The end-to-end scenario A axis of the spec: `spm = 1000`,
`backlashAmountSteps = 50`, starting at `motorSteps = 0`, `target = 0`,
tracking off. -/
def axisA : AxisState :=
  { spm := 1000, motorSteps := 0, targetSteps := 0, indexSteps := 0,
    backlashSteps := 0, backlashAmountSteps := 50, trackingStep := 1,
    tracking := false, takeStep := false, stepPin := false, dirFwd := true,
    target := 0, minPeriodMicros := 0, lastPeriod := 0, programmedPeriod := 0,
    enabled := true, enablePinWired := true }

/-- `axisA` after `setTargetCoordinate` has committed a 200-step target,
written out literally so that the step generator can be evaluated by kernel
reduction. -/
def scenA : AxisState := { axisA with target := 200, targetSteps := 200 }

/-- `Rat.floor` agrees with the `Int.floor` of the ambient `FloorRing`. -/
theorem ratFloor_eq_intFloor (q : ℚ) : q.floor = ⌊q⌋ := by
  rw [Rat.floor_def, Rat.floor_def']

/-- `lroundQ` is the identity on integers. -/
theorem lroundQ_intCast (n : ℤ) : lroundQ (n : ℚ) = n := by
  unfold lroundQ
  split_ifs with h
  · rw [ratFloor_eq_intFloor, show ((n : ℚ) + 1/2) = (1/2 + (n : ℚ)) by ring,
      Int.floor_add_int]
    have h0 : ⌊(1 : ℚ)/2⌋ = 0 := Int.floor_eq_zero_iff.mpr (by constructor <;> norm_num)
    omega
  · rw [ratFloor_eq_intFloor,
      show (-(n : ℚ) + 1/2) = (1/2 + ((-n : ℤ) : ℚ)) by push_cast; ring,
      Int.floor_add_int]
    have h0 : ⌊(1 : ℚ)/2⌋ = 0 := Int.floor_eq_zero_iff.mpr (by constructor <;> norm_num)
    omega

/-- Setting the target coordinate `0.2` on `axisA` (with `spm = 1000`)
commits exactly the 200-step target state `scenA`. -/
theorem scenA_eq : axisA.setTargetCoordinate (1/5) = scenA := by
  show AxisState.setTargetCoordinate (1/5) axisA = scenA
  unfold AxisState.setTargetCoordinate
  have h : (1 : ℚ)/5 * axisA.spm = ((200 : ℤ) : ℚ) := by norm_num [axisA]
  simp only [h, lroundQ_intCast]
  rfl

/-- C1: for every axis state satisfying `0 ≤ backlashSteps ≤
backlashAmountSteps`, and for every sequence of target/tracking changes
interleaved with generator ticks, the bound still holds after every event —
in particular each invocation of `Axis::move` preserves it. -/
theorem c1_backlash_bound (a : AxisState) (evs : List AxisEvent)
    (h : a.Inv) : (applyEvents a evs).Inv := by
  induction evs generalizing a with
  | nil => exact h
  | cons e es ih => exact ih _ (AxisState.Inv_applyEvent a e h)

/-- Witness for C1 at a concrete axis and a concrete interleaving of a
target change, a tracking toggle and generator ticks. -/
theorem c1_backlash_bound_witness :
    axisA.Inv ∧
    (applyEvents axisA
      [AxisEvent.tick, AxisEvent.setTargetC 1, AxisEvent.tick,
       AxisEvent.setTrackingE true, AxisEvent.tick]).Inv := by
  constructor
  · decide
  · exact c1_backlash_bound axisA _ (by decide)

set_option maxRecDepth 40000 in
/-- C2: with tracking disabled (so the target is held fixed), repeated
invocations of `Axis::move` monotonically reduce
`|motorSteps + backlashSteps - targetSteps|`, reach zero within `2·dist`
ticks, and from then on the step pin stays deasserted; and in the concrete
scenario A (`spm = 1000`, `backlashAmountSteps = 50`, start at
`motorSteps = 0`, target set to 200 via `setTargetCoordinate`), enough ticks
end with `motorSteps = 150`, `backlashSteps = 50` and `nearTarget() = true`. -/
theorem c2_monotone_convergence :
    (∀ a : AxisState, a.tracking = false →
      (∀ n : ℕ, (AxisState.moveIter (n + 1) a).dist ≤
        (AxisState.moveIter n a).dist) ∧
      (AxisState.moveIter (2 * a.dist) a).dist = 0 ∧
      (∀ k : ℕ, (AxisState.moveIter (2 * a.dist + 2 + k) a).stepPin = false)) ∧
    ((AxisState.moveIter 400 (axisA.setTargetCoordinate (1/5))).motorSteps = 150 ∧
     (AxisState.moveIter 400 (axisA.setTargetCoordinate (1/5))).backlashSteps = 50 ∧
     (AxisState.moveIter 400 (axisA.setTargetCoordinate (1/5))).nearTarget = true) := by
  constructor
  · intro a ht
    refine ⟨AxisState.dist_moveIter_mono a ht, ?_, ?_⟩
    · rw [AxisState.dist_moveIter_two_mul a ht]
      omega
    · intro k
      have hidx : 2 * a.dist + 2 + k = (2 + k) + 2 * a.dist := by omega
      rw [hidx, AxisState.moveIter_add]
      have hs : (AxisState.moveIter (2 * a.dist) a).dist = 0 := by
        rw [AxisState.dist_moveIter_two_mul a ht]; omega
      exact (AxisState.stepPin_after_conv _
        (by rw [AxisState.tracking_moveIter]; exact ht) hs k).1
  · rw [scenA_eq]
    decide

/-- Witness for C2: the hypothesis `tracking = false` is discharged at the
concrete scenario axis. -/
theorem c2_monotone_convergence_witness :
    scenA.tracking = false ∧
    (AxisState.moveIter (2 * scenA.dist) scenA).dist = 0 := by
  refine ⟨rfl, ?_⟩
  exact (c2_monotone_convergence.1 scenA rfl).2.1

/-- C3: `Axis::setFrequency` programs period 0 (axis stationary, frequency
reads back as 0) whenever the half-period is not finite (`frequency*spm = 0`)
or exceeds the 134,000,000 µs ceiling; otherwise it programs the clamped,
halved value converted to sub-microsecond ticks (×16) and scaled by the
oscillator-calibration ratio. -/
theorem c3_setFrequency_guard (sp cp freq : ℚ) (a : AxisState) :
    (freq * a.spm = 0 ∨ 134000000 < |AxisState.halfPeriodMicros freq a| →
      (a.setFrequency sp cp freq).lastPeriod = 0 ∧
      (a.setFrequency sp cp freq).programmedPeriod = 0 ∧
      (a.setFrequency sp cp freq).getFrequencySteps = 0 ∧
      (a.setFrequency sp cp freq).getFrequency = 0) ∧
    (freq * a.spm ≠ 0 → |AxisState.halfPeriodMicros freq a| ≤ 134000000 →
      (a.setFrequency sp cp freq).lastPeriod =
        toULong (lroundQ (AxisState.halfPeriodMicros freq a * 16)) ∧
      (a.setFrequency sp cp freq).programmedPeriod =
        toULong (lroundQ (AxisState.halfPeriodMicros freq a * 16 * (sp / cp)))) := by
  constructor
  · rintro (h | h)
    · simp [AxisState.setFrequency, h, AxisState.getFrequencySteps,
        AxisState.getFrequency]
    · by_cases h0 : freq * a.spm = 0
      · simp [AxisState.setFrequency, h0, AxisState.getFrequencySteps,
          AxisState.getFrequency]
      · have hn : ¬(|AxisState.halfPeriodMicros freq a| ≤ 134000000) :=
          not_le.mpr h
        simp [AxisState.setFrequency, h0, hn, AxisState.getFrequencySteps,
          AxisState.getFrequency]
  · intro h0 h1
    simp [AxisState.setFrequency, h0, h1]

/-- Witness for C3: a frequency of 10⁻⁹ measures/sec on the scenario axis
makes the half-period 5·10¹¹ µs, beyond the ceiling, so the programmed
period is 0 and the axis reads back as stationary. -/
theorem c3_setFrequency_guard_witness :
    (1 : ℚ)/1000000000 * axisA.spm ≠ 0 ∧
    134000000 < |AxisState.halfPeriodMicros (1/1000000000) axisA| ∧
    (axisA.setFrequency 1 1 (1/1000000000)).lastPeriod = 0 ∧
    (axisA.setFrequency 1 1 (1/1000000000)).getFrequency = 0 := by
  have hd : AxisState.halfPeriodMicros (1/1000000000) axisA = 500000000000 := by
    unfold AxisState.halfPeriodMicros
    norm_num [axisA]
  have h0 : (1 : ℚ)/1000000000 * axisA.spm ≠ 0 := by norm_num [axisA]
  have h1 : (134000000 : ℚ) < |AxisState.halfPeriodMicros (1/1000000000) axisA| := by
    rw [hd]; norm_num
  have hr := (c3_setFrequency_guard 1 1 (1/1000000000) axisA).1 (Or.inr h1)
  exact ⟨h0, h1, hr.1, hr.2.2.2⟩

/-- A concrete instantiation of the external conversion helpers, used by the
witnesses (their exact values are irrelevant to the claims). -/
def extId : ExtConv :=
  { hzToSidereal := fun x => x, hzToSubMicros := fun x => x,
    siderealToRad := fun x => x, siderealPeriod := 15956313,
    siderealRateHz := 60164/1000 }

/-- A concrete GEM mount state, tracking sidereally with no compensation. -/
def mountBase : MountState :=
  { mountType := MountType.GEM, trackingState := TrackingState.TS_SIDEREAL,
    rateCompensation := RateCompensation.RC_NONE,
    parkState := ParkState.PS_UNPARKED, gotoState := GotoState.GS_NONE,
    guideState := GuideState.GU_NONE, trackingRate := 1,
    trackingRateAxis1 := 1, trackingRateAxis2 := 0,
    guideRateAxis1 := 0, guideRateAxis2 := 0,
    deltaRateAxis1 := 0, deltaRateAxis2 := 0,
    minAltitude := -1/6, maxAltitude := 3/2,
    clockPeriodSubMicros := 15956313,
    axis1 := axisA, axis2 := axisA, generalErrors := resetGeneralErrors }

/-- The same mount configured as altazimuth. -/
def mountAlt : MountState := { mountBase with mountType := MountType.ALTAZM }

/-- C4: after `Mount::updateTrackingRates`, a non-altazimuth mount with
tracking on has `trackingRateAxis1 = trackingRate`; the secondary rate is
zero unless a dual-axis compensation mode is selected; with tracking off
both rates are zero; and each axis is programmed via `Axis::setFrequency`
with `trackingRateAxis + guideRateAxis + deltaRateAxis` converted to
measures/sec. -/
theorem c4_updateTrackingRates (ext : ExtConv) (m : MountState) :
    (m.trackingState = TrackingState.TS_NONE →
      (m.updateTrackingRates ext).trackingRateAxis1 = 0 ∧
      (m.updateTrackingRates ext).trackingRateAxis2 = 0) ∧
    (m.mountType ≠ MountType.ALTAZM → m.trackingState ≠ TrackingState.TS_NONE →
      (m.updateTrackingRates ext).trackingRateAxis1 = m.trackingRate) ∧
    (m.mountType ≠ MountType.ALTAZM →
      m.rateCompensation ≠ RateCompensation.RC_REFR_BOTH →
      m.rateCompensation ≠ RateCompensation.RC_FULL_BOTH →
      (m.updateTrackingRates ext).trackingRateAxis2 = 0) ∧
    ((m.updateTrackingRates ext).axis1 =
      m.axis1.setFrequency ext.siderealPeriod m.clockPeriodSubMicros
        (ext.siderealToRad ((m.updateTrackingRates ext).trackingRateAxis1 +
          m.guideRateAxis1 + m.deltaRateAxis1))) ∧
    ((m.updateTrackingRates ext).axis2 =
      m.axis2.setFrequency ext.siderealPeriod m.clockPeriodSubMicros
        (ext.siderealToRad ((m.updateTrackingRates ext).trackingRateAxis2 +
          m.guideRateAxis2 + m.deltaRateAxis2))) := by
  refine ⟨?_, ?_, ?_, ?_, ?_⟩ <;>
    unfold MountState.updateTrackingRates <;>
    by_cases hmt : m.mountType = MountType.ALTAZM <;>
    by_cases hts : m.trackingState = TrackingState.TS_NONE <;>
    by_cases hr1 : m.rateCompensation = RateCompensation.RC_REFR_BOTH <;>
    by_cases hr2 : m.rateCompensation = RateCompensation.RC_FULL_BOTH <;>
    simp_all

/-- Witness for C4 at the concrete GEM mount (tracking on, no dual-axis
compensation): primary gets `trackingRate`, secondary gets zero. -/
theorem c4_updateTrackingRates_witness :
    mountBase.mountType ≠ MountType.ALTAZM ∧
    mountBase.trackingState ≠ TrackingState.TS_NONE ∧
    (mountBase.updateTrackingRates extId).trackingRateAxis1 =
      mountBase.trackingRate ∧
    (mountBase.updateTrackingRates extId).trackingRateAxis2 = 0 := by
  have h := c4_updateTrackingRates extId mountBase
  exact ⟨by decide, by decide,
    h.2.1 (by decide) (by decide),
    h.2.2.1 (by decide) (by decide) (by decide)⟩

/-- C5 (code bug): the missing `else` between the two `if` chains of the
`T` command block makes `:To#` on a non-altazimuth mount mutate
`rateCompensation` to full-compensation AND return `CE_CMD_UNKNOWN` — a
rejected command with a partial state mutation, contradicting both the
propagation policy and the command table documented in the source. -/
theorem c5_to_mutates_on_reject :
    (tCommand extId TCmd.o mountBase).2 = CommandError.CE_CMD_UNKNOWN ∧
    (tCommand extId TCmd.o mountBase).1.rateCompensation =
      RateCompensation.RC_FULL_RA ∧
    mountBase.rateCompensation = RateCompensation.RC_NONE :=
  ⟨rfl, rfl, rfl⟩

/-- Counterexample to C6 as stated: on an altazimuth mount `:To#` is
rejected with `CE_CMD_UNKNOWN`, which is not one of the state-conflict
error kinds. -/
theorem c6_altazm_not_state_conflict :
    (tCommand extId TCmd.o mountAlt).2 = CommandError.CE_CMD_UNKNOWN ∧
    isStateConflict (tCommand extId TCmd.o mountAlt).2 = false :=
  ⟨rfl, rfl⟩

/-- C6 (amended): on an altazimuth mount every compensation-mode-change
request (`To`, `Tr`, `Tn`, `T1`, `T2`) is rejected with the command-unknown
error and leaves the whole mount state — in particular `rateCompensation` —
unchanged. -/
theorem c6_altazm_reject_amended (ext : ExtConv) (m : MountState) (c : TCmd)
    (hm : m.mountType = MountType.ALTAZM)
    (hc : c = TCmd.o ∨ c = TCmd.r ∨ c = TCmd.n ∨ c = TCmd.one ∨ c = TCmd.two) :
    (tCommand ext c m).2 = CommandError.CE_CMD_UNKNOWN ∧
    (tCommand ext c m).1 = m := by
  rcases hc with h | h | h | h | h <;> subst h <;> simp [tCommand, hm]

/-- Witness for C6 (amended) at the concrete altazimuth mount and `:Tr#`. -/
theorem c6_altazm_reject_witness :
    mountAlt.mountType = MountType.ALTAZM ∧
    (tCommand extId TCmd.r mountAlt).2 = CommandError.CE_CMD_UNKNOWN ∧
    (tCommand extId TCmd.r mountAlt).1 = mountAlt := by
  have h := c6_altazm_reject_amended extId mountAlt TCmd.r rfl
    (Or.inr (Or.inl rfl))
  exact ⟨rfl, h.1, h.2⟩

/-- Round trip of the degree/radian conversion helpers. -/
theorem radToDeg_degToRad (x : ℚ) : radToDeg (degToRad x) = x := by
  unfold radToDeg degToRad piRat
  field_simp
  ring

/-- C7 (code bug): the altazimuth overhead-limit clamp compares
`limits.maxAltitude` — stored in radians — against the bare number 87, so
for an in-range degree input it can never fire: `:So90#` on an altazimuth
mount is accepted and stores a 90° limit, exceeding the documented 87°
ceiling. -/
theorem c7_overhead_clamp_dead :
    (soCommand 90 mountAlt).2 = CommandError.CE_NONE ∧
    (soCommand 90 mountAlt).1.maxAltitude = degToRad 90 ∧
    radToDeg (soCommand 90 mountAlt).1.maxAltitude = 90 ∧
    ¬ radToDeg (soCommand 90 mountAlt).1.maxAltitude ≤ 87 := by
  have hgt : ¬ ((87 : ℚ) < degToRad 90) := by
    unfold degToRad piRat
    norm_num
  have hso : soCommand 90 mountAlt =
      ({ mountAlt with maxAltitude := degToRad 90 }, CommandError.CE_NONE) := by
    unfold soCommand
    simp [hgt]
  rw [hso]
  refine ⟨rfl, rfl, ?_, ?_⟩ <;> simp [radToDeg_degToRad]
  norm_num

/-- Counterexample to C8 as stated: the horizon-limit parameter 45 lies
outside the accepted range `[-30, 30]`, so `:Sh45#` is rejected with the
parameter-range error and the state is unchanged — it is not accepted. -/
theorem c8_sh45_rejected :
    (shCommand 45 mountBase).2 = CommandError.CE_PARAM_RANGE ∧
    (shCommand 45 mountBase).1 = mountBase :=
  ⟨rfl, rfl⟩

/-- C8 (amended): `:Sh[sDD]#` accepts exactly the degree values in
`[-30, 30]`, storing `degToRad(deg)` (so a subsequent read converts back to
the same number of degrees), and rejects anything outside that range with
the parameter-range error, leaving the state unchanged. -/
theorem c8_horizon_limit_amended (deg : ℤ) (m : MountState) :
    (-30 ≤ deg ∧ deg ≤ 30 →
      (shCommand deg m).2 = CommandError.CE_NONE ∧
      (shCommand deg m).1.minAltitude = degToRad deg ∧
      radToDeg (shCommand deg m).1.minAltitude = (deg : ℚ)) ∧
    (¬(-30 ≤ deg ∧ deg ≤ 30) →
      shCommand deg m = (m, CommandError.CE_PARAM_RANGE)) := by
  constructor
  · intro h
    simp [shCommand, h, radToDeg_degToRad]
  · intro h
    simp [shCommand, h]

/-- Witness for C8 (amended) at `deg = 20` on the concrete mount. -/
theorem c8_horizon_limit_witness :
    ((-30 : ℤ) ≤ 20 ∧ (20 : ℤ) ≤ 30) ∧
    (shCommand 20 mountBase).2 = CommandError.CE_NONE ∧
    radToDeg (shCommand 20 mountBase).1.minAltitude = (20 : ℚ) := by
  have h := (c8_horizon_limit_amended 20 mountBase).1 (by decide)
  exact ⟨by decide, h.1, h.2.2⟩

/-- `ctrunc` is the identity on integers. -/
theorem ctrunc_intCast (n : ℤ) : ctrunc (n : ℚ) = n := by
  unfold ctrunc
  split_ifs with h
  · rw [ratFloor_eq_intFloor, Int.floor_intCast]
  · rw [ratFloor_eq_intFloor, show (-(n : ℚ)) = ((-n : ℤ) : ℚ) by push_cast; ring,
      Int.floor_intCast]
    omega

/-- An axis calibrated so that one step is one arc-second
(`spm = 648000/π` steps per radian). -/
def axisC : AxisState := { axisA with spm := 648000 / piRat }

/-- The concrete mount whose Dec/Alt axis is `axisC`. -/
def mountC : MountState := { mountBase with axis2 := axisC }

/-- C9 (code bug): `Axis::setBacklash` writes `backlashAmountSteps` but
`Axis::getBacklash` reads `backlashSteps`, so the set/get round trip does
not return the value that was set: on an axis with one step per arc-second
and no banked backlash, setting 50 arc-seconds stores
`backlashAmountSteps = 50` yet reads back as 0 — and the protocol round
trip `:$BD50#` then `:%BD#` replies 0. -/
theorem c9_backlash_roundtrip_bug :
    (axisC.setBacklash (arcsecToRad 50)).backlashAmountSteps = 50 ∧
    radToArcsec (axisC.setBacklash (arcsecToRad 50)).getBacklash = 0 ∧
    percentBCommand BAxis.D (dollarBCommand BAxis.D 50 mountC).1 = 0 ∧
    (0 : ℤ) ≠ 50 := by
  have hc0 : ctrunc (0 : ℚ) = 0 := by simpa using ctrunc_intCast 0
  have hs : arcsecToRad 50 * axisC.spm = ((50 : ℤ) : ℚ) := by
    show arcsecToRad 50 * (648000 / piRat) = ((50 : ℤ) : ℚ)
    unfold arcsecToRad degToRad piRat
    norm_num
  have hset : (axisC.setBacklash (arcsecToRad 50)).backlashAmountSteps = 50 := by
    show ctrunc (arcsecToRad 50 * axisC.spm) = 50
    rw [hs, ctrunc_intCast]
  have hget : radToArcsec (axisC.setBacklash (arcsecToRad 50)).getBacklash = 0 := by
    show radToArcsec (((0 : ℤ) : ℚ) / axisC.spm) = 0
    simp [radToArcsec, radToDeg]
  refine ⟨hset, hget, ?_, by decide⟩
  have hd : (dollarBCommand BAxis.D 50 mountC).1.axis2 =
      axisC.setBacklash (arcsecToRad 50) := by
    unfold dollarBCommand
    norm_num
    rfl
  show (let arcSec := ctrunc (radToArcsec
      ((dollarBCommand BAxis.D 50 mountC).1.axis2.getBacklash))
    let arcSec := if arcSec < 0 then 0 else arcSec
    if arcSec > 3600 then 3600 else arcSec) = 0
  rw [hd]
  have hg : radToArcsec ((axisC.setBacklash (arcsecToRad 50)).getBacklash) = 0 := hget
  rw [hg, hc0]
  norm_num

/-- C10: the two backlash read commands are interchangeable — `:%BR#` and
`:%BD#` compute the identical reply from `axis2`'s backlash value
(truncated, then clamped to [0, 3600] arc-seconds); in particular the reply
is unaffected by anything stored on `axis1`. -/
theorem c10_percentB_reads_axis2 (m : MountState) :
    percentBCommand BAxis.R m = percentBCommand BAxis.D m ∧
    (∀ v : AxisState, percentBCommand BAxis.R { m with axis1 := v } =
      percentBCommand BAxis.R m) ∧
    0 ≤ percentBCommand BAxis.R m ∧ percentBCommand BAxis.R m ≤ 3600 := by
  refine ⟨rfl, fun v => rfl, ?_, ?_⟩ <;>
  · simp only [percentBCommand]
    split_ifs <;> omega
